import Mathlib

/-!
Shallow embedding of the `rust-handshake` repository (a 3-way HELLO handshake
over TCP) and proofs about its message codec, stream transport adapter,
handshake state machines and worker-pool sizing.

Modelling conventions:
* Rust `i32` values are `Int`s constrained to `isI32`; `i32` addition is the
  wrapping addition `i32add` (the arithmetic the compiled program performs).
* Byte-stream I/O is modelled by `ReadOutcome`: what one platform `read` call
  delivered (its decoded text, a deadline expiry, a platform I/O failure).
  Writes and stdout printing are modelled as infallible, matching the spec's
  abstract reliable stream.
* Rust `String`s are Lean `String`s; `str::split_whitespace`, `str::trim`,
  `str::trim_end_matches` and `i32::from_str` / `Display` are re-implemented
  character by character below, faithful to their documented behaviour.
-/

namespace RustHandshake

/-- Constant `MSG_SIZE` from `src/lib.rs`: the fixed frame capacity in bytes. -/
def MSG_SIZE : Nat := 64

/-- The error enum `HandshakeError` from `src/error.rs`.  The `Io` payload
(`std::io::Error`) is not inspected by any code under verification, so it is
dropped. -/
inductive HandshakeError where
  | Io
  | InvalidMessageFormat (message : String)
  | InvalidSequenceNumber (token : String)
  | SequenceMismatch (expected received : Int)
  | ClientDisconnected
  | Timeout
  | InvalidPort (s : String)
  | InvalidArguments (s : String)
deriving DecidableEq

instance {ε α : Type} [DecidableEq ε] [DecidableEq α] :
    DecidableEq (Except ε α) := fun x y =>
  match x, y with
  | .ok a, .ok b =>
    if h : a = b then isTrue (by rw [h]) else isFalse (by simp [h])
  | .error a, .error b =>
    if h : a = b then isTrue (by rw [h]) else isFalse (by simp [h])
  | .ok _, .error _ => isFalse (by simp)
  | .error _, .ok _ => isFalse (by simp)

/-- Predicate: `n` is representable as a Rust `i32`. -/
def isI32 (n : Int) : Prop := -2147483648 ≤ n ∧ n ≤ 2147483647

instance (n : Int) : Decidable (isI32 n) := by unfold isI32; infer_instance

/-- Two's-complement wrapping 32-bit addition: the addition the compiled
program performs on `i32` (release-mode overflow semantics). -/
def i32add (a b : Int) : Int := (a + b + 2147483648) % 4294967296 - 2147483648

/-- Rust `char::is_whitespace`: the Unicode `White_Space` property. -/
def rustIsWhitespace (c : Char) : Bool :=
  c.toNat = 0x09 || c.toNat = 0x0A || c.toNat = 0x0B || c.toNat = 0x0C ||
  c.toNat = 0x0D || c.toNat = 0x20 || c.toNat = 0x85 || c.toNat = 0xA0 ||
  c.toNat = 0x1680 || (0x2000 ≤ c.toNat && c.toNat ≤ 0x200A) ||
  c.toNat = 0x2028 || c.toNat = 0x2029 || c.toNat = 0x202F ||
  c.toNat = 0x205F || c.toNat = 0x3000

/-- Worker for `splitWS`; `acc` holds the current token, reversed. -/
def splitWSAux : List Char → List Char → List (List Char)
  | [], acc => if acc.isEmpty then [] else [acc.reverse]
  | c :: cs, acc =>
    if rustIsWhitespace c then
      if acc.isEmpty then splitWSAux cs [] else acc.reverse :: splitWSAux cs []
    else splitWSAux cs (c :: acc)

/-- Rust `str::split_whitespace` (collected): the maximal non-whitespace
runs of the string, in order; empty tokens never occur. -/
def splitWS (cs : List Char) : List (List Char) := splitWSAux cs []

/-- ASCII decimal digit test, `c ∈ '0'..='9'`. -/
def isAsciiDigit (c : Char) : Bool := 48 ≤ c.toNat && c.toNat ≤ 57

/-- Numeric value of a digit string, most significant digit first. -/
def digitsVal (cs : List Char) : Nat :=
  cs.foldl (fun a c => a * 10 + (c.toNat - 48)) 0

/-- Parse a non-empty all-digit character run to its value; `none` otherwise. -/
def parseDigits (cs : List Char) : Option Nat :=
  if cs ≠ [] ∧ cs.all isAsciiDigit then some (digitsVal cs) else none

/-- Rust `i32::from_str` (`"…".parse::<i32>()`): optional `+`/`-` sign, then
one or more ASCII digits, with the value required to fit in `i32`. -/
def parseI32 (cs : List Char) : Option Int :=
  match cs with
  | [] => none
  | c :: rest =>
    if c = '-' then
      (parseDigits rest).bind fun v =>
        if v ≤ 2147483648 then some (-(v : Int)) else none
    else if c = '+' then
      (parseDigits rest).bind fun v =>
        if v ≤ 2147483647 then some ((v : Int)) else none
    else
      (parseDigits cs).bind fun v =>
        if v ≤ 2147483647 then some ((v : Int)) else none

/-- The ASCII digit character for `n < 10`. -/
def digitChar (n : Nat) : Char := Char.ofNat (48 + n)

/-- Fuel-driven worker for `natToDigits`; the fuel only serves to make the
recursion structural (hence kernel-reducible), it never runs out when
`natToDigits` supplies it. -/
def natToDigitsAux : Nat → Nat → List Char → List Char
  | 0, _, acc => acc
  | fuel + 1, n, acc =>
    if n < 10 then digitChar n :: acc
    else natToDigitsAux fuel (n / 10) (digitChar (n % 10) :: acc)

/-- Decimal digits of a natural number, most significant first. -/
def natToDigits (n : Nat) : List Char := natToDigitsAux (n + 1) n []

/-- Reference recursion for `natToDigits`, convenient for induction. -/
def natToDigitsRec (n : Nat) : List Char :=
  if _h : n < 10 then [digitChar n]
  else natToDigitsRec (n / 10) ++ [digitChar (n % 10)]
  termination_by n
  decreasing_by exact Nat.div_lt_self (by omega) (by omega)

/-- Rust `Display` for `i32`: minus sign for negatives, then decimal digits. -/
def i32ToChars (n : Int) : List Char :=
  if n < 0 then '-' :: natToDigits n.natAbs else natToDigits n.toNat

/-- Function `format_hello_message` from `src/protocol.rs`:
`format!("HELLO {seq_num}")`. -/
def format_hello_message (seq_num : Int) : String :=
  String.mk ("HELLO ".data ++ i32ToChars seq_num)

/-- Function `parse_hello_message` from `src/protocol.rs`: split on whitespace;
unless there are exactly two tokens with the first `"HELLO"`, fail with
`InvalidMessageFormat`; else parse the second token as `i32`, failing with
`InvalidSequenceNumber`. -/
def parse_hello_message (message : String) : Except HandshakeError Int :=
  match splitWS message.data with
  | [t0, t1] =>
    if t0 = "HELLO".data then
      match parseI32 t1 with
      | some n => .ok n
      | none => .error (.InvalidSequenceNumber (String.mk t1))
    else .error (.InvalidMessageFormat message)
  | _ => .error (.InvalidMessageFormat message)

/-- Drop every trailing `'\0'` character: Rust
`str::trim_end_matches('\0')` for this single-character pattern. -/
def trimEndNulls (s : String) : String :=
  String.mk ((s.data.reverse.dropWhile (fun c => c = '\x00')).reverse)

/-- Rust `str::trim`: remove leading and trailing Unicode whitespace. -/
def rustTrim (s : String) : String :=
  String.mk
    (((s.data.dropWhile rustIsWhitespace).reverse.dropWhile
        rustIsWhitespace).reverse)

/-- What one platform `read` call on the stream delivered.
`bytes s` is a successful read of `s.utf8ByteSize` bytes whose buffer
content decodes (via `String::from_utf8_lossy`, which is total) to `s`;
zero bytes read is `bytes ""`.  `timedOut` is a read that did not complete
within the configured read deadline: for the blocking stream the platform
`read` then returns an `Err` of kind `WouldBlock`/`TimedOut` (an
`std::io::Error`), and for the suspension-capable stream the
`tokio::time::timeout` wrapper fires.  `ioFailure` is any other platform
I/O error. -/
inductive ReadOutcome where
  | bytes (decoded : String)
  | timedOut
  | ioFailure
deriving DecidableEq

/-- Function `read_message_from_stream` from `src/protocol.rs` (blocking variant):
`stream.read(&mut buffer)?` propagates every platform error — including the
expired read deadline — as `HandshakeError::Io`; a zero-byte read becomes
`ClientDisconnected`; otherwise the decoded text with trailing null bytes
stripped is returned. -/
def read_message_from_stream (r : ReadOutcome) : Except HandshakeError String :=
  match r with
  | .timedOut => .error .Io
  | .ioFailure => .error .Io
  | .bytes s =>
    if s = "" then .error .ClientDisconnected
    else .ok (trimEndNulls s)

/-- Function `read_message_from_async_stream` from `src/protocol.rs` (suspension-capable
variant): the `timeout(READ_TIMEOUT, …)` wrapper maps an expired deadline to
`HandshakeError::Timeout` and an inner read error to `HandshakeError::Io`; a
zero-byte read becomes `ClientDisconnected`; otherwise trailing null bytes are
stripped and the result additionally `trim`med. -/
def read_message_from_async_stream (r : ReadOutcome) :
    Except HandshakeError String :=
  match r with
  | .timedOut => .error .Timeout
  | .ioFailure => .error .Io
  | .bytes s =>
    if s = "" then .error .ClientDisconnected
    else .ok (rustTrim (trimEndNulls s))

/-- Function `perform_client_handshake` from `src/protocol.rs`.  `reply` is what the
single read in step 2 delivered.  Returns the messages written to the stream,
in order, and the function's result.  Writes and stdout are modelled as
infallible; `set_read_timeout` as succeeding. -/
def perform_client_handshake (initial_seq : Int) (reply : ReadOutcome) :
    List String × Except HandshakeError Unit :=
  let first_message := format_hello_message initial_seq
  match read_message_from_stream reply with
  | .error e => ([first_message], .error e)
  | .ok received_msg =>
    match parse_hello_message received_msg with
    | .error e => ([first_message], .error e)
    | .ok received_seq =>
      let expected_seq := i32add initial_seq 1
      if received_seq ≠ expected_seq then
        ([first_message],
         .error (.SequenceMismatch expected_seq received_seq))
      else
        ([first_message, format_hello_message (i32add received_seq 1)],
         .ok ())

/-- Function `perform_async_client_handshake` from `src/protocol.rs`: same steps as the
blocking client but reading through `read_message_from_async_stream`.  The
surrounding `timeout(CLIENT_CONNECTION_TIMEOUT, …)` wrapper, which replaces
the result by `Timeout` when the whole exchange overruns the wall-clock
deadline, is real-time behaviour outside this embedding. -/
def perform_async_client_handshake (initial_seq : Int) (reply : ReadOutcome) :
    List String × Except HandshakeError Unit :=
  let first_message := format_hello_message initial_seq
  match read_message_from_async_stream reply with
  | .error e => ([first_message], .error e)
  | .ok received_msg =>
    match parse_hello_message received_msg with
    | .error e => ([first_message], .error e)
    | .ok received_seq =>
      let expected_seq := i32add initial_seq 1
      if received_seq ≠ expected_seq then
        ([first_message],
         .error (.SequenceMismatch expected_seq received_seq))
      else
        ([first_message, format_hello_message (i32add received_seq 1)],
         .ok ())

/-- The `eprintln!` line `perform_server_handshake` emits when the final
sequence number mismatches. -/
def serverMismatchLog (expected_final final_seq : Int) : String :=
  String.mk ("ERROR: Expected HELLO ".data ++ i32ToChars expected_final ++
    ", received HELLO ".data ++ i32ToChars final_seq)

/-- Function `perform_server_handshake` from `src/protocol.rs`.  `r1`/`r2` are what the
reads in steps 1 and 3 delivered.  Returns the messages written to the
stream, the error-log lines written to stderr, and the function's result.
Note step 3: a final-sequence mismatch is logged but the function still
returns `Ok(())`. -/
def perform_server_handshake (r1 r2 : ReadOutcome) :
    List String × List String × Except HandshakeError Unit :=
  match read_message_from_stream r1 with
  | .error e => ([], [], .error e)
  | .ok received_msg =>
    match parse_hello_message received_msg with
    | .error e => ([], [], .error e)
    | .ok client_seq =>
      let server_seq := i32add client_seq 1
      let response := format_hello_message server_seq
      match read_message_from_stream r2 with
      | .error e => ([response], [], .error e)
      | .ok final_msg =>
        match parse_hello_message final_msg with
        | .error e => ([response], [], .error e)
        | .ok final_seq =>
          let expected_final := i32add server_seq 1
          if final_seq ≠ expected_final then
            ([response], [serverMismatchLog expected_final final_seq], .ok ())
          else
            ([response], [], .ok ())

/-- Function `perform_async_server_handshake` from `src/protocol.rs`: same steps as the
blocking server but reading through `read_message_from_async_stream`.  The
surrounding `timeout(CONNECTION_TIMEOUT, …)` wrapper is real-time behaviour
outside this embedding. -/
def perform_async_server_handshake (r1 r2 : ReadOutcome) :
    List String × List String × Except HandshakeError Unit :=
  match read_message_from_async_stream r1 with
  | .error e => ([], [], .error e)
  | .ok received_msg =>
    match parse_hello_message received_msg with
    | .error e => ([], [], .error e)
    | .ok client_seq =>
      let server_seq := i32add client_seq 1
      let response := format_hello_message server_seq
      match read_message_from_async_stream r2 with
      | .error e => ([response], [], .error e)
      | .ok final_msg =>
        match parse_hello_message final_msg with
        | .error e => ([response], [], .error e)
        | .ok final_seq =>
          let expected_final := i32add server_seq 1
          if final_seq ≠ expected_final then
            ([response], [serverMismatchLog expected_final final_seq], .ok ())
          else
            ([response], [], .ok ())

/-- Function `calculate_optimal_thread_count` from `src/utils.rs`, parameterized by
what `std::thread::available_parallelism()` returned (`none` models its
`Err` case, handled by `unwrap_or(8)`). -/
def calculate_optimal_thread_count (availableParallelism : Option Nat) : Nat :=
  max 4 ((availableParallelism.map (fun n => n * 2)).getD 8)

/-! ### Sanity checks on concrete inputs -/

example : parse_hello_message "HELLO 42" = .ok 42 := by decide
example : parse_hello_message "HELLO -17" = .ok (-17) := by decide
example : parse_hello_message "HI 5" =
    .error (.InvalidMessageFormat "HI 5") := by decide
example : parse_hello_message "HELLO" =
    .error (.InvalidMessageFormat "HELLO") := by decide
example : parse_hello_message "HELLO 1 2" =
    .error (.InvalidMessageFormat "HELLO 1 2") := by decide
example : parse_hello_message "HELLO abc" =
    .error (.InvalidSequenceNumber "abc") := by decide
example : format_hello_message (-5) = "HELLO -5" := by decide
example : format_hello_message 100 = "HELLO 100" := by decide
example : parse_hello_message "HELLO 2147483648" =
    .error (.InvalidSequenceNumber "2147483648") := by decide
example : parse_hello_message "HELLO -2147483648" = .ok (-2147483648) := by decide

example :
    perform_client_handshake 100 (.bytes "HELLO 999") =
      (["HELLO 100"], .error (.SequenceMismatch 101 999)) := by decide
example :
    perform_client_handshake 100 (.bytes "HELLO 101") =
      (["HELLO 100", "HELLO 102"], .ok ()) := by decide
example :
    perform_server_handshake (.bytes "HELLO 100") (.bytes "HELLO 102") =
      (["HELLO 101"], [], .ok ()) := by decide
example :
    perform_server_handshake (.bytes "HELLO 100") (.bytes "HELLO 7") =
      (["HELLO 101"],
       ["ERROR: Expected HELLO 102, received HELLO 7"], .ok ()) := by decide
example : calculate_optimal_thread_count (some 3) = 6 := by decide
example : calculate_optimal_thread_count (some 1) = 4 := by decide
example : calculate_optimal_thread_count none = 8 := by decide
example :
    perform_async_server_handshake (.bytes "HELLO 100\x00\x00")
      (.bytes " HELLO 102 ") = (["HELLO 101"], [], .ok ()) := by decide

/-! ### Decimal digit printing: supporting lemmas -/

lemma digitChar_toNat {n : Nat} (h : n < 10) : (digitChar n).toNat = 48 + n := by
  interval_cases n <;> decide

lemma natToDigitsAux_eq_rec :
    ∀ fuel n acc, 1 ≤ fuel → n < 10 ^ fuel →
      natToDigitsAux fuel n acc = natToDigitsRec n ++ acc := by
  intro fuel
  induction fuel with
  | zero => intro n acc h; omega
  | succ fuel ih =>
    intro n acc _ hn
    rw [natToDigitsAux, natToDigitsRec]
    by_cases h10 : n < 10
    · rw [if_pos h10, dif_pos h10]; rfl
    · rw [if_neg h10, dif_neg h10]
      have hfuel : 1 ≤ fuel := by
        rcases Nat.eq_zero_or_pos fuel with h0 | h1
        · subst h0; simp at hn; omega
        · exact h1
      have hdiv : n / 10 < 10 ^ fuel := by
        rw [Nat.div_lt_iff_lt_mul (by omega)]
        calc n < 10 ^ (fuel + 1) := hn
        _ = 10 ^ fuel * 10 := by ring
      rw [ih (n / 10) _ hfuel hdiv, List.append_assoc]
      rfl

lemma natToDigits_eq_rec (n : Nat) : natToDigits n = natToDigitsRec n := by
  have h1 : n < 10 ^ (n + 1) := by
    calc n < 10 ^ n := Nat.lt_pow_self (by norm_num) n
    _ ≤ 10 ^ (n + 1) := Nat.pow_le_pow_right (by norm_num) (by omega)
  rw [natToDigits, natToDigitsAux_eq_rec (n + 1) n [] (by omega) h1,
    List.append_nil]

lemma natToDigitsRec_ne_nil (n : Nat) : natToDigitsRec n ≠ [] := by
  rw [natToDigitsRec]
  by_cases h10 : n < 10
  · rw [dif_pos h10]; simp
  · rw [dif_neg h10]; simp

lemma natToDigitsRec_mem {n : Nat} {c : Char} (hc : c ∈ natToDigitsRec n) :
    48 ≤ c.toNat ∧ c.toNat ≤ 57 := by
  induction n using Nat.strong_induction_on with
  | _ n ih =>
    rw [natToDigitsRec] at hc
    by_cases h10 : n < 10
    · rw [dif_pos h10] at hc
      simp only [List.mem_singleton] at hc
      subst hc
      rw [digitChar_toNat h10]; omega
    · rw [dif_neg h10] at hc
      rcases List.mem_append.mp hc with h | h
      · exact ih (n / 10) (Nat.div_lt_self (by omega) (by omega)) h
      · simp only [List.mem_singleton] at h
        subst h
        rw [digitChar_toNat (Nat.mod_lt n (by omega))]
        have := Nat.mod_lt n (show 0 < 10 by omega)
        omega

lemma natToDigitsRec_foldl (n : Nat) :
    ∀ a : Nat, (natToDigitsRec n).foldl (fun a c => a * 10 + (c.toNat - 48)) a
      = a * 10 ^ (natToDigitsRec n).length + n := by
  induction n using Nat.strong_induction_on with
  | _ n ih =>
    intro a
    rw [natToDigitsRec]
    by_cases h10 : n < 10
    · rw [dif_pos h10]
      simp [digitChar_toNat h10]
    · rw [dif_neg h10]
      rw [List.foldl_append, ih (n / 10) (Nat.div_lt_self (by omega) (by omega)) a]
      simp only [List.foldl_cons, List.foldl_nil, List.length_append,
        List.length_singleton,
        digitChar_toNat (Nat.mod_lt n (by omega : (0:ℕ) < 10))]
      rw [pow_succ]
      have h1 : 48 + n % 10 - 48 = n % 10 := by omega
      rw [h1]
      have hdm : n / 10 * 10 + n % 10 = n := by omega
      calc (a * 10 ^ (natToDigitsRec (n / 10)).length + n / 10) * 10 + n % 10
          = a * (10 ^ (natToDigitsRec (n / 10)).length * 10)
            + (n / 10 * 10 + n % 10) := by ring
      _ = a * (10 ^ (natToDigitsRec (n / 10)).length * 10) + n := by rw [hdm]

lemma natToDigitsRec_length_le {n k : Nat} (hk : 1 ≤ k) (hn : n < 10 ^ k) :
    (natToDigitsRec n).length ≤ k := by
  induction k generalizing n with
  | zero => omega
  | succ k ih =>
    rw [natToDigitsRec]
    by_cases h10 : n < 10
    · rw [dif_pos h10]; simp
    · rw [dif_neg h10]
      have hfuel : 1 ≤ k := by
        rcases Nat.eq_zero_or_pos k with h0 | h1
        · subst h0; simp at hn; omega
        · exact h1
      have hdiv : n / 10 < 10 ^ k := by
        rw [Nat.div_lt_iff_lt_mul (by omega)]
        calc n < 10 ^ (k + 1) := hn
        _ = 10 ^ k * 10 := by ring
      have := ih hfuel hdiv
      simp only [List.length_append, List.length_singleton]
      omega

lemma digitsVal_natToDigits (n : Nat) : digitsVal (natToDigits n) = n := by
  rw [digitsVal, natToDigits_eq_rec, natToDigitsRec_foldl n 0]
  simp

lemma parseDigits_natToDigits (n : Nat) :
    parseDigits (natToDigits n) = some n := by
  rw [parseDigits, if_pos, digitsVal_natToDigits]
  constructor
  · rw [natToDigits_eq_rec]; exact natToDigitsRec_ne_nil n
  · rw [natToDigits_eq_rec]
    rw [List.all_eq_true]
    intro c hc
    have := natToDigitsRec_mem hc
    simp only [isAsciiDigit, Bool.and_eq_true, decide_eq_true_eq]
    omega

/-! ### Whitespace splitting: supporting lemmas -/

lemma not_whitespace_of_dash_digit {c : Char}
    (h1 : 45 ≤ c.toNat) (h2 : c.toNat ≤ 57) : rustIsWhitespace c = false := by
  simp only [rustIsWhitespace, Bool.or_eq_false_iff, Bool.and_eq_false_iff,
    decide_eq_false_iff_not]
  omega

lemma splitWSAux_no_ws :
    ∀ ds acc, (∀ c ∈ ds, rustIsWhitespace c = false) →
      splitWSAux ds acc =
        if acc.reverse ++ ds = [] then [] else [acc.reverse ++ ds] := by
  intro ds
  induction ds with
  | nil =>
    intro acc _
    simp [splitWSAux, List.isEmpty_iff]
  | cons c cs ih =>
    intro acc hws
    rw [splitWSAux, hws c (by simp)]
    simp only [Bool.false_eq_true, if_false]
    rw [ih (c :: acc) (fun x hx => hws x (by simp [hx]))]
    simp

lemma splitWS_hello_append (ds : List Char) (hne : ds ≠ [])
    (hws : ∀ c ∈ ds, rustIsWhitespace c = false) :
    splitWS ("HELLO ".data ++ ds) = ["HELLO".data, ds] := by
  have hH : rustIsWhitespace 'H' = false := by decide
  have hE : rustIsWhitespace 'E' = false := by decide
  have hL : rustIsWhitespace 'L' = false := by decide
  have hO : rustIsWhitespace 'O' = false := by decide
  have hSp : rustIsWhitespace ' ' = true := by decide
  have hdata : "HELLO ".data ++ ds =
      'H' :: 'E' :: 'L' :: 'L' :: 'O' :: ' ' :: ds := rfl
  rw [splitWS, hdata]
  rw [splitWSAux, hH]
  simp only [Bool.false_eq_true, if_false]
  rw [splitWSAux, hE]
  simp only [Bool.false_eq_true, if_false]
  rw [splitWSAux, hL]
  simp only [Bool.false_eq_true, if_false]
  rw [splitWSAux, hL]
  simp only [Bool.false_eq_true, if_false]
  rw [splitWSAux, hO]
  simp only [Bool.false_eq_true, if_false]
  rw [splitWSAux, hSp]
  simp only [if_true, List.isEmpty_cons, Bool.false_eq_true, if_false]
  rw [splitWSAux_no_ws ds [] hws]
  simp only [List.reverse_nil, List.nil_append, if_neg hne]
  rfl

/-! ### `i32` printing and parsing: supporting lemmas -/

lemma i32ToChars_ne_nil (n : Int) : i32ToChars n ≠ [] := by
  rw [i32ToChars]
  by_cases h : n < 0
  · rw [if_pos h]; simp
  · rw [if_neg h, natToDigits_eq_rec]; exact natToDigitsRec_ne_nil _

lemma i32ToChars_mem {n : Int} {c : Char} (hc : c ∈ i32ToChars n) :
    45 ≤ c.toNat ∧ c.toNat ≤ 57 := by
  rw [i32ToChars] at hc
  by_cases h : n < 0
  · rw [if_pos h] at hc
    rcases List.mem_cons.mp hc with h1 | h1
    · subst h1; constructor <;> decide
    · rw [natToDigits_eq_rec] at h1
      have := natToDigitsRec_mem h1
      omega
  · rw [if_neg h, natToDigits_eq_rec] at hc
    have := natToDigitsRec_mem hc
    omega

lemma i32ToChars_not_ws {n : Int} {c : Char} (hc : c ∈ i32ToChars n) :
    rustIsWhitespace c = false := by
  have := i32ToChars_mem hc
  exact not_whitespace_of_dash_digit this.1 this.2

lemma parseI32_i32ToChars {n : Int} (hn : isI32 n) :
    parseI32 (i32ToChars n) = some n := by
  rcases hn with ⟨hlo, hhi⟩
  by_cases h : n < 0
  · rw [i32ToChars, if_pos h]
    simp only [parseI32, if_pos rfl, parseDigits_natToDigits, Option.some_bind]
    have hcast : (n.natAbs : Int) = -n := by omega
    have hbound : n.natAbs ≤ 2147483648 := by omega
    rw [if_pos hbound]
    have hval : -((n.natAbs : Int)) = n := by omega
    rw [hval]
    simp
  · cases hcs : natToDigits n.toNat with
    | nil =>
      exact absurd (natToDigits_eq_rec n.toNat ▸ hcs) (natToDigitsRec_ne_nil _)
    | cons c rest =>
      have hmem : c ∈ i32ToChars n := by
        rw [i32ToChars, if_neg h, hcs]; simp
      have hdigit := i32ToChars_mem hmem
      have hws : 48 ≤ c.toNat := by
        rw [i32ToChars, if_neg h, natToDigits_eq_rec] at hmem
        exact (natToDigitsRec_mem hmem).1
      have hne1 : ¬ (c = '-') := by
        intro hh; subst hh; revert hws; decide
      have hne2 : ¬ (c = '+') := by
        intro hh; subst hh; revert hws; decide
      rw [i32ToChars, if_neg h, hcs]
      simp only [parseI32, if_neg hne1, if_neg hne2, ← hcs,
        parseDigits_natToDigits, Option.some_bind]
      have hbound : n.toNat ≤ 2147483647 := by omega
      rw [if_pos hbound]
      congr 1
      omega

lemma splitWS_format (n : Int) :
    splitWS (format_hello_message n).data = ["HELLO".data, i32ToChars n] := by
  have hdata : (format_hello_message n).data =
      "HELLO ".data ++ i32ToChars n := rfl
  rw [hdata]
  exact splitWS_hello_append _ (i32ToChars_ne_nil n)
    (fun c hc => i32ToChars_not_ws hc)

/-! ### Claim theorems -/

/-- C3: for every signed 32-bit integer `n`, parsing the formatted message
round-trips: `parse_hello_message (format_hello_message n) = Ok n`. -/
theorem parse_format_roundtrip (n : Int) (hn : isI32 n) :
    parse_hello_message (format_hello_message n) = .ok n := by
  unfold parse_hello_message
  rw [splitWS_format n]
  simp [parseI32_i32ToChars hn]

/-- Witness for C3 at `n = -2147483648` (the extreme `i32`). -/
theorem parse_format_roundtrip_witness :
    isI32 (-2147483648) ∧
      parse_hello_message (format_hello_message (-2147483648)) =
        .ok (-2147483648) :=
  ⟨by decide, parse_format_roundtrip (-2147483648) (by decide)⟩

/-- C7: a read that delivers zero bytes makes both frame readers fail with
the dedicated `ClientDisconnected` (spec: `PeerDisconnected`) error kind,
which is distinct from the generic `Io` kind. -/
theorem zero_byte_read_disconnects :
    read_message_from_stream (.bytes "") = .error .ClientDisconnected ∧
    read_message_from_async_stream (.bytes "") = .error .ClientDisconnected ∧
    HandshakeError.ClientDisconnected ≠ HandshakeError.Io := by decide

/-- C8: on a non-empty read, the blocking frame reader returns the decoded
text with trailing null bytes stripped and nothing else removed, while the
suspension-capable reader additionally trims surrounding whitespace. -/
theorem nonempty_read_strips (s : String) (hne : s ≠ "") :
    read_message_from_stream (.bytes s) = .ok (trimEndNulls s) ∧
    read_message_from_async_stream (.bytes s) =
      .ok (rustTrim (trimEndNulls s)) := by
  rw [read_message_from_stream, read_message_from_async_stream,
    if_neg hne, if_neg hne]
  exact ⟨rfl, rfl⟩

/-- Witness for C8 at `" HELLO 5\x00"`: the blocking reader keeps the
leading space, the suspension-capable reader trims it. -/
theorem nonempty_read_strips_witness :
    (read_message_from_stream (.bytes " HELLO 5\x00") =
        .ok (trimEndNulls " HELLO 5\x00") ∧
      read_message_from_async_stream (.bytes " HELLO 5\x00") =
        .ok (rustTrim (trimEndNulls " HELLO 5\x00"))) ∧
    trimEndNulls " HELLO 5\x00" = " HELLO 5" ∧
    rustTrim " HELLO 5" = "HELLO 5" :=
  ⟨nonempty_read_strips " HELLO 5\x00" (by decide), by decide, by decide⟩

/-- C9: the worker-pool size computed by `calculate_optimal_thread_count`
equals `max (4, 2 × availableParallelism)` whenever the platform reports an
available parallelism. -/
theorem thread_count_formula (n : Nat) :
    calculate_optimal_thread_count (some n) = max 4 (2 * n) := by
  simp [calculate_optimal_thread_count, Nat.mul_comm]

/-- C6 (counterexample): in the blocking variant, a read that hits the
configured read deadline surfaces the platform error via `?` as the generic
`Io` kind, so the client handshake fails with `Io`, not `Timeout`. -/
theorem blocking_timeout_error_kind :
    perform_client_handshake 100 .timedOut =
      (["HELLO 100"], .error .Io) ∧
    HandshakeError.Io ≠ HandshakeError.Timeout := by decide

/-- C6 (amended): a read deadline expiry fails the handshake with `Timeout`
in the suspension-capable variant, but in the blocking variant it propagates
as the generic `Io` error kind. -/
theorem read_deadline_error_kinds (X : Int) (r2 : ReadOutcome) :
    read_message_from_async_stream .timedOut = .error .Timeout ∧
    read_message_from_stream .timedOut = .error .Io ∧
    perform_async_client_handshake X .timedOut =
      ([format_hello_message X], .error .Timeout) ∧
    (perform_async_server_handshake .timedOut r2).2.2 = .error .Timeout ∧
    perform_client_handshake X .timedOut =
      ([format_hello_message X], .error .Io) ∧
    (perform_server_handshake .timedOut r2).2.2 = .error .Io :=
  ⟨rfl, rfl, rfl, rfl, rfl, rfl⟩

/-- C1: the client-role handshake (blocking and suspension-capable) first
sends exactly `HELLO X`; if the parsed reply `R` equals `X + 1` (the
program's 32-bit `X + 1`) it sends exactly `HELLO (R + 1)` and succeeds,
otherwise it returns `SequenceMismatch` with `expected = X + 1`,
`received = R`, having sent no third message. -/
theorem client_checks_second_message
    (X R : Int) (r ra : ReadOutcome) (m ma : String)
    (hr : read_message_from_stream r = .ok m)
    (hp : parse_hello_message m = .ok R)
    (hra : read_message_from_async_stream ra = .ok ma)
    (hpa : parse_hello_message ma = .ok R) :
    perform_client_handshake X r =
      (if R = i32add X 1
        then ([format_hello_message X,
               format_hello_message (i32add R 1)], .ok ())
        else ([format_hello_message X],
              .error (.SequenceMismatch (i32add X 1) R))) ∧
    perform_async_client_handshake X ra =
      (if R = i32add X 1
        then ([format_hello_message X,
               format_hello_message (i32add R 1)], .ok ())
        else ([format_hello_message X],
              .error (.SequenceMismatch (i32add X 1) R))) := by
  unfold perform_client_handshake perform_async_client_handshake
  simp only [hr, hp, hra, hpa]
  by_cases hR : R = i32add X 1
  · simp [hR]
  · simp [hR]

/-- Witness for C1: `X = 100`, faulty reply `HELLO 999` on both variants
yields `SequenceMismatch{expected: 101, received: 999}`. -/
theorem client_checks_second_message_witness :
    perform_client_handshake 100 (.bytes "HELLO 999") =
      (if (999 : Int) = i32add 100 1
        then ([format_hello_message 100,
               format_hello_message (i32add 999 1)], .ok ())
        else ([format_hello_message 100],
              .error (.SequenceMismatch (i32add 100 1) 999))) ∧
    perform_async_client_handshake 100 (.bytes "HELLO 999") =
      (if (999 : Int) = i32add 100 1
        then ([format_hello_message 100,
               format_hello_message (i32add 999 1)], .ok ())
        else ([format_hello_message 100],
              .error (.SequenceMismatch (i32add 100 1) 999))) :=
  client_checks_second_message 100 999 (.bytes "HELLO 999")
    (.bytes "HELLO 999") "HELLO 999" "HELLO 999"
    (by decide) (by decide) (by decide) (by decide)

/-- C2: when both server-role reads parse (to `X` and `F`), the server-role
handshake returns success even when `F ≠ serverSeq + 1`; the mismatch is
only written to the error log, never returned as an error, in both the
blocking and suspension-capable variants. -/
theorem server_ignores_final_mismatch
    (X F : Int) (r1 r2 s1 s2 : ReadOutcome) (m1 m2 n1 n2 : String)
    (h1 : read_message_from_stream r1 = .ok m1)
    (hp1 : parse_hello_message m1 = .ok X)
    (h2 : read_message_from_stream r2 = .ok m2)
    (hp2 : parse_hello_message m2 = .ok F)
    (g1 : read_message_from_async_stream s1 = .ok n1)
    (gp1 : parse_hello_message n1 = .ok X)
    (g2 : read_message_from_async_stream s2 = .ok n2)
    (gp2 : parse_hello_message n2 = .ok F) :
    (perform_server_handshake r1 r2).2.2 = .ok () ∧
    (perform_server_handshake r1 r2).2.1 =
      (if F = i32add (i32add X 1) 1 then []
       else [serverMismatchLog (i32add (i32add X 1) 1) F]) ∧
    (perform_async_server_handshake s1 s2).2.2 = .ok () ∧
    (perform_async_server_handshake s1 s2).2.1 =
      (if F = i32add (i32add X 1) 1 then []
       else [serverMismatchLog (i32add (i32add X 1) 1) F]) := by
  unfold perform_server_handshake perform_async_server_handshake
  simp only [h1, hp1, h2, hp2, g1, gp1, g2, gp2]
  by_cases hF : F = i32add (i32add X 1) 1
  · simp [hF]
  · simp [hF]

/-- Witness for C2: the client's third message `HELLO 7` mismatches the
expected `HELLO 102`, yet both server variants return success, logging the
mismatch. -/
theorem server_ignores_final_mismatch_witness :
    (perform_server_handshake (.bytes "HELLO 100") (.bytes "HELLO 7")).2.2 =
      .ok () ∧
    (perform_server_handshake (.bytes "HELLO 100") (.bytes "HELLO 7")).2.1 =
      (if (7 : Int) = i32add (i32add 100 1) 1 then []
       else [serverMismatchLog (i32add (i32add 100 1) 1) 7]) ∧
    (perform_async_server_handshake (.bytes "HELLO 100")
        (.bytes "HELLO 7")).2.2 = .ok () ∧
    (perform_async_server_handshake (.bytes "HELLO 100")
        (.bytes "HELLO 7")).2.1 =
      (if (7 : Int) = i32add (i32add 100 1) 1 then []
       else [serverMismatchLog (i32add (i32add 100 1) 1) 7]) :=
  server_ignores_final_mismatch 100 7 (.bytes "HELLO 100")
    (.bytes "HELLO 7") (.bytes "HELLO 100") (.bytes "HELLO 7")
    "HELLO 100" "HELLO 7" "HELLO 100" "HELLO 7"
    (by decide) (by decide) (by decide) (by decide)
    (by decide) (by decide) (by decide) (by decide)

/-- C5: once step 1 parses the client's sequence number `X`, the only
message either server-role variant writes is exactly `HELLO (X + 1)`,
whatever step 3 delivers. -/
theorem server_step2_reply
    (X : Int) (r1 r2 s1 s2 : ReadOutcome) (m1 n1 : String)
    (h1 : read_message_from_stream r1 = .ok m1)
    (hp1 : parse_hello_message m1 = .ok X)
    (g1 : read_message_from_async_stream s1 = .ok n1)
    (gp1 : parse_hello_message n1 = .ok X) :
    (perform_server_handshake r1 r2).1 =
      [format_hello_message (i32add X 1)] ∧
    (perform_async_server_handshake s1 s2).1 =
      [format_hello_message (i32add X 1)] := by
  unfold perform_server_handshake perform_async_server_handshake
  simp only [h1, hp1, g1, gp1]
  constructor
  · cases read_message_from_stream r2 with
    | error e => rfl
    | ok m2 =>
      dsimp only
      cases parse_hello_message m2 with
      | error e => rfl
      | ok F =>
        dsimp only
        split <;> rfl
  · cases read_message_from_async_stream s2 with
    | error e => rfl
    | ok n2 =>
      dsimp only
      cases parse_hello_message n2 with
      | error e => rfl
      | ok F =>
        dsimp only
        split <;> rfl

/-- Witness for C5: the server answers `HELLO 100` with exactly
`HELLO 101` in both variants (here the peer then disconnects). -/
theorem server_step2_reply_witness :
    (perform_server_handshake (.bytes "HELLO 100") (.bytes "")).1 =
      [format_hello_message (i32add 100 1)] ∧
    (perform_async_server_handshake (.bytes "HELLO 100") (.bytes "")).1 =
      [format_hello_message (i32add 100 1)] :=
  server_step2_reply 100 (.bytes "HELLO 100") (.bytes "")
    (.bytes "HELLO 100") (.bytes "") "HELLO 100" "HELLO 100"
    (by decide) (by decide) (by decide) (by decide)

/-- C4: `parse_hello_message` returns `Ok n` iff the input splits on
whitespace into exactly two tokens, the first exactly `"HELLO"` and the
second a valid `i32` literal of value `n`; it returns
`InvalidMessageFormat` exactly when the token shape is wrong, and
`InvalidSequenceNumber` exactly when only the second token fails to parse
as an `i32`. -/
theorem parse_hello_message_cases (s : String) :
    (∀ n : Int, parse_hello_message s = .ok n ↔
      ∃ t, splitWS s.data = ["HELLO".data, t] ∧ parseI32 t = some n) ∧
    ((∃ msg, parse_hello_message s = .error (.InvalidMessageFormat msg)) ↔
      ¬ ∃ t, splitWS s.data = ["HELLO".data, t]) ∧
    ((∃ tok, parse_hello_message s =
        .error (.InvalidSequenceNumber tok)) ↔
      ∃ t, splitWS s.data = ["HELLO".data, t] ∧ parseI32 t = none) := by
  unfold parse_hello_message
  rcases hsp : splitWS s.data with _ | ⟨t0, ts⟩
  · simp
  rcases ts with _ | ⟨t1, ts⟩
  · simp
  rcases ts with _ | ⟨t2, ts⟩
  · by_cases ht0 : t0 = "HELLO".data
    · subst ht0
      cases hp : parseI32 t1 with
      | none => simp [hp]
      | some v => simp [hp]
    · simp [ht0, Ne.symm ht0]
  · simp

/-- C10: for every `i32` value `n`, `format_hello_message n` is at most 17
characters, every character is ASCII (so it occupies at most 17 bytes), and
17 is strictly below the frame capacity `MSG_SIZE = 64`: every
protocol-generated message fits in a single frame. -/
theorem format_fits_frame (n : Int) (hn : isI32 n) :
    (format_hello_message n).length ≤ 17 ∧
    (∀ c ∈ (format_hello_message n).data, c.toNat < 128) ∧
    17 < MSG_SIZE := by
  rcases hn with ⟨hlo, hhi⟩
  have hdata : (format_hello_message n).data =
      "HELLO ".data ++ i32ToChars n := rfl
  refine ⟨?_, ?_, by norm_num [MSG_SIZE]⟩
  · show (format_hello_message n).data.length ≤ 17
    rw [hdata, List.length_append]
    have h6 : ("HELLO ".data).length = 6 := by decide
    rw [h6]
    have hpow : (10 : Nat) ^ 10 = 10000000000 := by norm_num
    rw [i32ToChars]
    by_cases h : n < 0
    · rw [if_pos h]
      simp only [List.length_cons]
      have habs : n.natAbs ≤ 2147483648 := by omega
      have h10 : (natToDigitsRec n.natAbs).length ≤ 10 :=
        natToDigitsRec_length_le (by omega)
          (show n.natAbs < 10 ^ 10 by omega)
      rw [natToDigits_eq_rec]
      omega
    · rw [if_neg h, natToDigits_eq_rec]
      have htn : n.toNat ≤ 2147483647 := by omega
      have h10 : (natToDigitsRec n.toNat).length ≤ 10 :=
        natToDigitsRec_length_le (by omega)
          (show n.toNat < 10 ^ 10 by omega)
      omega
  · intro c hc
    rw [hdata] at hc
    rcases List.mem_append.mp hc with h | h
    · have hall : ∀ c ∈ "HELLO ".data, c.toNat < 128 := by decide
      exact hall c h
    · have := i32ToChars_mem h
      omega

/-- Witness for C10 at the worst case `n = -2147483648`
(`"HELLO -2147483648"`, 17 characters). -/
theorem format_fits_frame_witness :
    isI32 (-2147483648) ∧
      ((format_hello_message (-2147483648)).length ≤ 17 ∧
       (∀ c ∈ (format_hello_message (-2147483648)).data, c.toNat < 128) ∧
       17 < MSG_SIZE) ∧
      format_hello_message (-2147483648) = "HELLO -2147483648" :=
  ⟨by decide, format_fits_frame (-2147483648) (by decide), by decide⟩

end RustHandshake
